import Mathlib

/-!
Shallow embedding of the NASA Space Explorer gallery script
(src/js/script.js) in Lean 4.

JSON media entries are modelled as records whose fields are `Option String`
(`none` = field absent/undefined on the wire, `some s` = a string field).
JavaScript truthiness on such a value is: `none` and `some ""` are falsy,
every other string is truthy.  The DOM (gallery container, trigger button,
modal) is modelled as an explicit state record, and the asynchronous
`fetchAndDisplayImages` as a pure state transformer over an abstract fetch
outcome.
-/

namespace SpaceExplorer

/-- One element of the fetched JSON array (snake_case wire fields). -/
structure MediaEntry where
  date : Option String
  title : Option String
  media_type : Option String
  url : Option String
  hdurl : Option String
  thumbnail_url : Option String
  explanation : Option String
  deriving Repr, DecidableEq

/-- JS truthiness of an optional string value: `undefined` and `""` are falsy. -/
def truthy : Option String → Bool
  | none => false
  | some s => s ≠ ""

/-- JS `a || d` where `a` is an optional string and `d` a string default:
the value of `a` when truthy, otherwise `d`. -/
def jsOrStr (a : Option String) (d : String) : String :=
  match a with
  | none => d
  | some s => if s = "" then d else s

/-- JS string interpolation of a possibly-undefined value:
`undefined` prints as `"undefined"`. -/
def jsTemplateStr : Option String → String
  | none => "undefined"
  | some s => s

/-- JS `String.prototype.toLowerCase`, modelled character-wise.  This is
extensionally `String.toLower` (`String.map Char.toLower`), written on the
underlying character list so that closed instances reduce inside the
kernel. -/
def jsToLower (s : String) : String := String.mk (s.data.map Char.toLower)

/-- Models `(item.media_type || '').toLowerCase()` (script.js line 57 / 250). -/
def normType (item : MediaEntry) : String :=
  jsToLower (jsOrStr item.media_type "")

/-- Models `item.url || item.hdurl || item.thumbnail_url` in boolean position
(script.js line 251). -/
def hasVisual (item : MediaEntry) : Bool :=
  truthy item.url || truthy item.hdurl || truthy item.thumbnail_url

/-- The filter applied to the fetched array (script.js lines 249–253):
keep entries whose normalized media type is image or video and that have at
least one visual URL. -/
def mediaFilter (data : List MediaEntry) : List MediaEntry :=
  data.filter fun item =>
    (normType item == "image" || normType item == "video") && hasVisual item

/-- Spec-side reading of "field is a non-empty string". -/
def nonEmptyStr (o : Option String) : Prop :=
  ∃ s, o = some s ∧ s ≠ ""

instance (o : Option String) : Decidable (nonEmptyStr o) := by
  unfold nonEmptyStr
  match o with
  | none => exact .isFalse (by simp)
  | some s => exact decidable_of_iff (s ≠ "") (by simp)

/-! ## URL parsing and the YouTube-ID extractor

`extractYouTubeId` (script.js lines 108–128) relies on the browser's WHATWG
`URL` constructor.  `parseUrl` models that constructor for plain
`http(s)://host/path?query` URLs without userinfo, port, percent-encoding or
fragment-relative tricks: the scheme must be `http://` or `https://`
(otherwise the constructor throws, modelled as `none`); the hostname is the
maximal run up to `/`, `?` or `#`, lower-cased; an empty pathname is `"/"`;
the query is everything between `?` and `#`/end.  All string processing is
done on `List Char`. -/

/-- Strip a concrete character-list prefix; `none` when `cs` does not start
with `pat`. -/
def stripChars : List Char → List Char → Option (List Char)
  | [], cs => some cs
  | _ :: _, [] => none
  | p :: ps, c :: cs => if c = p then stripChars ps cs else none

/-- Substring containment on character lists (JS `String.prototype.includes`). -/
def listIncludes (pat : List Char) : List Char → Bool
  | [] => pat.isEmpty
  | c :: rest => pat.isPrefixOf (c :: rest) || listIncludes pat rest

/-- Split on a separator character, keeping empty pieces
(always returns at least one piece). -/
def splitOnChar (sep : Char) : List Char → List (List Char)
  | [] => [[]]
  | c :: rest =>
    let r := splitOnChar sep rest
    if c = sep then [] :: r
    else
      match r with
      | [] => [[c]]
      | h :: t => (c :: h) :: t

/-- Split a query piece at its first `=`: key before, value after
(value empty when there is no `=`). -/
def splitEq : List Char → List Char × List Char
  | [] => ([], [])
  | c :: rest =>
    if c = '=' then ([], rest)
    else
      let kv := splitEq rest
      (c :: kv.1, kv.2)

/-- The outcome of the WHATWG `URL` constructor, restricted to the pieces the
script reads: `hostname`, `pathname` and the query string. -/
structure JsUrl where
  hostname : List Char
  pathname : List Char
  query : List Char
  deriving Repr, DecidableEq

/-- Modelled WHATWG `URL` constructor for `http(s)` URLs (see section header). -/
def parseUrl (cs : List Char) : Option JsUrl :=
  let rest? : Option (List Char) :=
    match stripChars "https://".toList cs with
    | some r => some r
    | none => stripChars "http://".toList cs
  match rest? with
  | none => none
  | some rest =>
    let host := rest.takeWhile fun c => c ≠ '/' && c ≠ '?' && c ≠ '#'
    if host.isEmpty then none
    else
      let afterHost := rest.drop host.length
      let path := afterHost.takeWhile fun c => c ≠ '?' && c ≠ '#'
      let pathname := if path.isEmpty then ['/'] else path
      let query :=
        match afterHost.drop path.length with
        | '?' :: qs => qs.takeWhile fun c => c ≠ '#'
        | _ => []
      some ⟨host.map Char.toLower, pathname, query⟩

/-- The `URLSearchParams` view of a query string: non-empty `&`-separated pieces,
each split at its first `=` (keys and values are not percent-decoded, which
is exact for the URLs the script handles). -/
def parseQuery (q : List Char) : List (List Char × List Char) :=
  (splitOnChar '&' q).filterMap fun part =>
    if part.isEmpty then none else some (splitEq part)

/-- Models `searchParams.get k`: value of the first pair with key `k`, else null. -/
def searchGet (kvs : List (List Char × List Char)) (k : List Char) : Option (List Char) :=
  match kvs with
  | [] => none
  | kv :: rest => if kv.1 = k then some kv.2 else searchGet rest k

/-- The character class `[a-zA-Z0-9_-]` of the embed regex. -/
def idChar (c : Char) : Bool :=
  ('a' ≤ c && c ≤ 'z') || ('A' ≤ c && c ≤ 'Z') || ('0' ≤ c && c ≤ '9') ||
    c = '_' || c = '-'

/-- Models `pathname.match` against the embed regex of script.js line 117
(pattern `/embed/` then capture `[a-zA-Z0-9_-]` six or more times):
leftmost occurrence of `/embed/` followed by at least six id-characters;
the capture is the maximal id-character run there. -/
def embedScan : List Char → Option (List Char)
  | [] => none
  | c :: cs =>
    match stripChars "/embed/".toList (c :: cs) with
    | some afterTok =>
      let run := afterTok.takeWhile idChar
      if 6 ≤ run.length then some run else embedScan cs
    | none => embedScan cs

/-- JS `s.replace(pat, '')` with a single-character pattern: remove the first
occurrence only. -/
def jsReplaceFirst (pat : Char) : List Char → List Char
  | [] => []
  | c :: rest => if c = pat then rest else c :: jsReplaceFirst pat rest

/-- JS `String.prototype.trim`: strip whitespace from both ends. -/
def jsTrim (cs : List Char) : List Char :=
  ((cs.dropWhile Char.isWhitespace).reverse.dropWhile Char.isWhitespace).reverse

/-- Models `extractYouTubeId` (script.js lines 108–128): null for a falsy argument or
a URL the constructor rejects; inside `youtube.com` hosts try `watch?v=ID`
then `/embed/ID`; for host `youtu.be` take the path with its first slash
removed, trimmed; otherwise null. -/
def extractYouTubeId (url : Option String) : Option String :=
  match url with
  | none => none
  | some s =>
    if s = "" then none
    else
      match parseUrl s.toList with
      | none => none
      | some u =>
        let fromYouTubeCom : Option (List Char) :=
          if listIncludes "youtube.com".toList u.hostname then
            match searchGet (parseQuery u.query) "v".toList with
            | some v => if v.isEmpty then embedScan u.pathname else some v
            | none => embedScan u.pathname
          else none
        match fromYouTubeCom with
        | some r => some (String.mk r)
        | none =>
          if u.hostname = "youtu.be".toList then
            let id := jsTrim (jsReplaceFirst '/' u.pathname)
            if id.isEmpty then none else some (String.mk id)
          else none

/-! ## DOM state model

The gallery container's children, the trigger button, the modal and the
focus bookkeeping are modelled explicitly; every DOM helper of the script
becomes a pure function on this state. -/

/-- A gallery card as built by `createGalleryItem` (script.js lines 50–90):
`data-index`, the `img` source and alt text, and the caption text. -/
structure CardNode where
  index : Nat
  src : String
  alt : String
  caption : String
  deriving Repr, DecidableEq

/-- A child of the gallery container: either a placeholder/message `div`
(from the initial markup, `showMessage` or `showLoading`) or a card. -/
inductive GalleryNode where
  | placeholderMsg (text : String)
  | card (c : CardNode)
  deriving Repr, DecidableEq

/-- The fetch trigger button: `disabled` flag and `textContent`. -/
structure ButtonState where
  disabled : Bool
  label : String
  deriving Repr, DecidableEq

/-- An element that can hold keyboard focus. -/
inductive FocusTarget where
  | body
  | triggerButton
  | cardAt (i : Nat)
  | modalClose
  | other (name : String)
  deriving Repr, DecidableEq

/-- Content of the modal's media wrapper. -/
inductive MediaNode where
  | youtubeEmbed (iframeSrc : String) (iframeTitle : String)
  | image (src : String) (alt : String)
  deriving Repr, DecidableEq

/-- A link in the modal's video-link area. -/
structure LinkNode where
  href : String
  text : String
  deriving Repr, DecidableEq

/-- The modal overlay: visibility plus the populated text/media areas. -/
structure ModalState where
  hidden : Bool
  title : String
  date : String
  description : String
  media : List MediaNode
  videoLink : List LinkNode
  deriving Repr, DecidableEq

/-- The whole mutable page state the script touches. -/
structure AppState where
  gallery : List GalleryNode
  button : ButtonState
  latestMediaItems : List MediaEntry
  modal : ModalState
  lastFocusedElement : Option FocusTarget
  activeElement : FocusTarget
  hasLoadedOnce : Bool
  deriving Repr, DecidableEq

/-- Models `clearGallery` (script.js lines 25–27): `gallery.innerHTML = ''`. -/
def clearGallery (_g : List GalleryNode) : List GalleryNode := []

/-- Models `showMessage` (script.js lines 30–36): clear, then append one
placeholder div holding the text. -/
def showMessage (text : String) (g : List GalleryNode) : List GalleryNode :=
  clearGallery g ++ [GalleryNode.placeholderMsg text]

/-- Models `showLoading` (script.js lines 39–46). -/
def showLoading (g : List GalleryNode) : List GalleryNode :=
  clearGallery g ++ [GalleryNode.placeholderMsg "Loading space media..."]

/-- Models `createGalleryItem` (script.js lines 50–90): the data the card carries.
Display source: videos use `thumbnail_url || url || ''`, everything else
`url || hdurl || ''`. -/
def createGalleryItem (item : MediaEntry) (index : Nat) : CardNode :=
  let mediaType := normType item
  let displaySrc :=
    if mediaType = "video" then jsOrStr item.thumbnail_url (jsOrStr item.url "")
    else jsOrStr item.url (jsOrStr item.hdurl "")
  let alt :=
    if truthy item.title then
      jsTemplateStr item.title ++ " - " ++ jsTemplateStr item.date
    else if mediaType = "video" then "Space video" else "Space image"
  let caption :=
    (if mediaType = "video" then "▶ " else "") ++
      jsOrStr item.title "Untitled" ++ " (" ++ jsOrStr item.date "Unknown date" ++ ")"
  ⟨index, displaySrc, alt, caption⟩

/-- The `mediaItems.forEach((item, idx) => ...)` loop of
`fetchAndDisplayImages` (script.js lines 263–266), building one card per
item in order. -/
def buildCards (items : List MediaEntry) (idx : Nat) : List GalleryNode :=
  match items with
  | [] => []
  | it :: rest => GalleryNode.card (createGalleryItem it idx) :: buildCards rest (idx + 1)

/-- The renderer of the success path (script.js lines 261–266):
`clearGallery()` then append the cards. -/
def renderGallery (items : List MediaEntry) (g : List GalleryNode) : List GalleryNode :=
  clearGallery g ++ buildCards items 0

/-- JS array indexing `latestMediaItems[index]` with an arbitrary integer
index: `undefined` for negative or out-of-bounds indices. -/
def jsIndex (l : List MediaEntry) (i : Int) : Option MediaEntry :=
  if i < 0 then none else l.get? i.toNat

/-! ## Modal logic -/

/-- Models `openModalByIndex` (script.js lines 130–194): look the item up in
`latestMediaItems`; bail out on a missing item; otherwise record focus,
populate the text areas, clear and rebuild the media and link areas,
un-hide the modal and focus the close button. -/
def openModalByIndex (st : AppState) (index : Int) : AppState :=
  match jsIndex st.latestMediaItems index with
  | none => st
  | some item =>
    let mediaType := normType item
    let mediaAndLink : List MediaNode × List LinkNode :=
      if mediaType = "video" then
        match extractYouTubeId item.url with
        | some ytid =>
          ([MediaNode.youtubeEmbed ("https://www.youtube.com/embed/" ++ ytid ++ "?rel=0")
              (jsOrStr item.title "YouTube video")],
           [⟨jsTemplateStr item.url, "Open on YouTube"⟩])
        | none =>
          ([MediaNode.image (jsOrStr item.thumbnail_url (jsOrStr item.url ""))
              (jsOrStr item.title "Space video")],
           if truthy item.url then [⟨jsTemplateStr item.url, "Open Video in New Tab"⟩]
           else [])
      else
        ([MediaNode.image (jsOrStr item.hdurl (jsOrStr item.url ""))
            (jsOrStr item.title "Space image")], [])
    { st with
      lastFocusedElement := some st.activeElement
      modal :=
        { hidden := false
          title := jsOrStr item.title "Untitled"
          date := jsOrStr item.date ""
          description := jsOrStr item.explanation "No explanation available."
          media := mediaAndLink.1
          videoLink := mediaAndLink.2 }
      activeElement := FocusTarget.modalClose }

/-- Models `closeModal` (script.js lines 196–202): hide the modal and restore focus
to the recorded element when one was recorded. -/
def closeModal (st : AppState) : AppState :=
  let st := { st with modal := { st.modal with hidden := true } }
  match st.lastFocusedElement with
  | some el => { st with activeElement := el }
  | none => st

/-- The document-level keydown listener (script.js lines 217–221):
close on Escape only while the modal is visible. -/
def handleDocumentKeydown (key : String) (st : AppState) : AppState :=
  if key = "Escape" && !st.modal.hidden then closeModal st else st

/-! ## The fetch pipeline -/

/-- Abstract outcome of `fetch` + `response.json()`: the four ways the
`try` block's awaits can resolve.  Array elements are modelled as
`MediaEntry` records per the wire format of §6 of the spec. -/
inductive FetchOutcome where
  | networkReject
  | notOk
  | parseError
  | jsonNonArray
  | jsonArray (data : List MediaEntry)
  deriving Repr, DecidableEq

/-- State right after the synchronous prefix of `fetchAndDisplayImages`
(script.js lines 226–231): button disabled with label "Loading...", gallery
showing the loading placeholder.  The original label is read before being
overwritten, so it is the caller's `st.button.label`. -/
def loadingPhase (st : AppState) : AppState :=
  { st with
    button := ⟨true, "Loading..."⟩
    gallery := showLoading st.gallery }

/-- The `try`/`catch` body of `fetchAndDisplayImages` (script.js lines
233–272) acting on the post-`loadingPhase` state: errors and the non-array
and empty cases show their messages; a non-empty filtered array is rendered
and stored for the modal. -/
def fetchBody (st : AppState) (outcome : FetchOutcome) : AppState :=
  match outcome with
  | .networkReject | .notOk | .parseError =>
    { st with gallery := showMessage "There was a problem loading images. Please try again." st.gallery }
  | .jsonNonArray =>
    { st with gallery := showMessage "Unexpected data format. Please try again later." st.gallery }
  | .jsonArray data =>
    let mediaItems := mediaFilter data
    if mediaItems.length = 0 then
      { st with gallery := showMessage "No media entries found." st.gallery }
    else
      { st with
        gallery := renderGallery mediaItems st.gallery
        latestMediaItems := mediaItems
        hasLoadedOnce := true }

/-- Models `fetchAndDisplayImages` (script.js lines 224–278) as a state
transformer over the fetch outcome: synchronous prefix, body, then the
`finally` block re-enabling the button and restoring its original label on
every path. -/
def fetchAndDisplayImages (st : AppState) (outcome : FetchOutcome) : AppState :=
  let originalBtnText := st.button.label
  let after := fetchBody (loadingPhase st) outcome
  { after with button := ⟨false, originalBtnText⟩ }

/-! ## Sample concrete states and entries, used in closed-form results -/

/-- A sample page state before any fetch: closed modal, enabled button,
empty working set. -/
def initialState : AppState :=
  { gallery := [GalleryNode.placeholderMsg "Click the button to load media."]
    button := ⟨false, "Get Space Images"⟩
    latestMediaItems := []
    modal := ⟨true, "", "", "", [], []⟩
    lastFocusedElement := none
    activeElement := FocusTarget.body
    hasLoadedOnce := false }

/-- The state `initialState` with the modal visible. -/
def sampleOpenState : AppState :=
  { initialState with modal := { initialState.modal with hidden := false } }

/-- A video entry whose `url` is not a YouTube URL. -/
def vimeoEntry : MediaEntry :=
  ⟨some "2024-01-01", some "A Space Film", some "video",
    some "https://vimeo.com/12345", none, some "thumb.jpg", some "About it"⟩

/-- A state whose working set holds just `vimeoEntry`. -/
def vimeoState : AppState :=
  { initialState with latestMediaItems := [vimeoEntry] }

/-- A sample image entry with every field present. -/
def sampleImageEntry : MediaEntry :=
  ⟨some "2024-02-02", some "Nebula", some "image",
    some "https://example.org/n.jpg", some "https://example.org/n_hd.jpg",
    none, some "A nebula."⟩

/-- A video entry with neither `thumbnail_url` nor `url`. -/
def emptyVideoEntry : MediaEntry :=
  ⟨none, none, some "video", none, some "https://example.org/v_hd.jpg", none, none⟩

/-! ## Helper lemmas -/

theorem truthy_iff (o : Option String) : truthy o = true ↔ nonEmptyStr o := by
  cases o with
  | none => simp [truthy, nonEmptyStr]
  | some s => simp [truthy, nonEmptyStr]

theorem jsOrStr_pos (s d : String) (h : s ≠ "") : jsOrStr (some s) d = s := by
  simp [jsOrStr, h]

theorem jsOrStr_neg (o : Option String) (d : String) (h : ¬ nonEmptyStr o) :
    jsOrStr o d = d := by
  cases o with
  | none => rfl
  | some s =>
    by_cases hs : s = ""
    · simp [jsOrStr, hs]
    · exact absurd ⟨s, rfl, hs⟩ h

theorem typeCond_iff (e : MediaEntry) :
    ((normType e == "image" || normType e == "video") = true) ↔
      ∃ t, e.media_type = some t ∧ (jsToLower t = "image" ∨ jsToLower t = "video") := by
  cases h : e.media_type with
  | none =>
    simp only [normType, jsOrStr, h]
    constructor
    · intro hc; exact absurd hc (by decide)
    · rintro ⟨t, ht, _⟩; cases ht
  | some t =>
    by_cases ht : t = ""
    · subst ht
      simp only [normType, jsOrStr, h, if_pos rfl]
      constructor
      · intro hc; exact absurd hc (by decide)
      · rintro ⟨t', ht', hv⟩
        cases ht'
        exact absurd hv (by decide)
    · simp only [normType, jsOrStr, h, if_neg ht]
      constructor
      · intro hc
        rcases Bool.or_eq_true _ _ |>.mp hc with h1 | h1
        · exact ⟨t, rfl, Or.inl (eq_of_beq h1)⟩
        · exact ⟨t, rfl, Or.inr (eq_of_beq h1)⟩
      · rintro ⟨t', ht', hv⟩
        cases ht'
        rcases hv with hv | hv <;> simp [hv]

theorem stripChars_self (ps cs : List Char) : stripChars ps (ps ++ cs) = some cs := by
  induction ps with
  | nil => rfl
  | cons p ps ih => simp [stripChars, ih]

theorem takeWhile_append_of_all (p : Char → Bool) (l₁ l₂ : List Char)
    (h : ∀ c ∈ l₁, p c = true) : (l₁ ++ l₂).takeWhile p = l₁ ++ l₂.takeWhile p := by
  induction l₁ with
  | nil => rfl
  | cons c l ih =>
    have hc := h c (List.mem_cons_self c l)
    simp only [List.cons_append, List.takeWhile_cons, hc, if_true]
    rw [ih fun x hx => h x (List.mem_cons_of_mem c hx)]

theorem takeWhile_append_stop (p : Char → Bool) (l₁ l₂ : List Char)
    (h : l₁.all p = false) : (l₁ ++ l₂).takeWhile p = l₁.takeWhile p := by
  induction l₁ with
  | nil => simp at h
  | cons c l ih =>
    cases hc : p c with
    | true =>
      have hl : l.all p = false := by simpa [hc] using h
      simp only [List.cons_append, List.takeWhile_cons, hc, if_true]
      rw [ih hl]
    | false => simp only [List.cons_append, List.takeWhile_cons, hc]; rfl

theorem takeWhile_all (p : Char → Bool) (l : List Char)
    (h : ∀ c ∈ l, p c = true) : l.takeWhile p = l := by
  induction l with
  | nil => rfl
  | cons c rest ih =>
    simp only [List.takeWhile_cons, h c (List.mem_cons_self c rest), if_true]
    rw [ih fun x hx => h x (List.mem_cons_of_mem c hx)]

theorem dropWhile_all_neg (p : Char → Bool) (l : List Char)
    (h : ∀ c ∈ l, p c = false) : l.dropWhile p = l := by
  cases l with
  | nil => rfl
  | cons c rest => simp [List.dropWhile, h c (List.mem_cons_self c rest)]

theorem jsTrim_id (l : List Char) (h : ∀ c ∈ l, Char.isWhitespace c = false) :
    jsTrim l = l := by
  rw [jsTrim, dropWhile_all_neg _ _ h, dropWhile_all_neg, List.reverse_reverse]
  intro c hc
  exact h c (List.mem_reverse.mp hc)

theorem drop_append_of_le (n : Nat) (l₁ l₂ : List Char) (h : n ≤ l₁.length) :
    (l₁ ++ l₂).drop n = l₁.drop n ++ l₂ := by
  induction l₁ generalizing n with
  | nil =>
    have : n = 0 := Nat.le_zero.mp h
    subst this; rfl
  | cons c l ih =>
    cases n with
    | zero => rfl
    | succ m =>
      simp only [List.cons_append, List.drop_succ_cons]
      exact ih m (Nat.succ_le_succ_iff.mp h)

theorem splitOnChar_no_sep (sep : Char) (l : List Char)
    (h : ∀ c ∈ l, c ≠ sep) : splitOnChar sep l = [l] := by
  induction l with
  | nil => rfl
  | cons c rest ih =>
    have hc : ¬ c = sep := h c (List.mem_cons_self c rest)
    rw [splitOnChar]
    simp only [if_neg hc, ih fun x hx => h x (List.mem_cons_of_mem c hx)]

theorem idChar_props (c : Char) (h : idChar c = true) :
    c ≠ '/' ∧ c ≠ '?' ∧ c ≠ '#' ∧ c ≠ '&' ∧ c ≠ '=' ∧ Char.isWhitespace c = false := by
  have hne : ∀ b : Char, idChar b = false → c ≠ b := by
    intro b hb hcb
    rw [hcb, hb] at h
    cases h
  refine ⟨hne '/' (by decide), hne '?' (by decide), hne '#' (by decide),
    hne '&' (by decide), hne '=' (by decide), ?_⟩
  have h1 := hne ' ' (by decide)
  have h2 := hne '\t' (by decide)
  have h3 := hne '\r' (by decide)
  have h4 := hne '\n' (by decide)
  simp [Char.isWhitespace, h1, h2, h3, h4]

theorem parseUrl_watch (idc : List Char)
    (hid : ∀ c ∈ idc, idChar c = true) :
    parseUrl ("https://www.youtube.com/watch?v=".toList ++ idc) =
      some ⟨"www.youtube.com".toList, "/watch".toList, 'v' :: '=' :: idc⟩ := by
  have hsplit : ("https://www.youtube.com/watch?v=".toList : List Char) =
      "https://".toList ++ "www.youtube.com/watch?v=".toList := rfl
  rw [parseUrl, hsplit, List.append_assoc, stripChars_self]
  simp only []
  rw [takeWhile_append_stop (fun c => decide (c ≠ '/') && decide (c ≠ '?') && decide (c ≠ '#'))
    "www.youtube.com/watch?v=".toList idc (by decide)]
  have h1 : List.takeWhile (fun c => decide (c ≠ '/') && decide (c ≠ '?') && decide (c ≠ '#'))
      "www.youtube.com/watch?v=".toList = "www.youtube.com".toList := by decide
  rw [h1]
  rw [if_neg (by decide)]
  rw [drop_append_of_le ("www.youtube.com".toList).length
    "www.youtube.com/watch?v=".toList idc (by decide)]
  have h2 : List.drop ("www.youtube.com".toList).length "www.youtube.com/watch?v=".toList
      = "/watch?v=".toList := by decide
  rw [h2]
  rw [takeWhile_append_stop (fun c => decide (c ≠ '?') && decide (c ≠ '#'))
    "/watch?v=".toList idc (by decide)]
  have h3 : List.takeWhile (fun c => decide (c ≠ '?') && decide (c ≠ '#'))
      "/watch?v=".toList = "/watch".toList := by decide
  rw [h3]
  rw [if_neg (by decide)]
  rw [drop_append_of_le ("/watch".toList).length "/watch?v=".toList idc (by decide)]
  have h4 : List.drop ("/watch".toList).length "/watch?v=".toList = ['?', 'v', '='] := by decide
  rw [h4]
  simp only [List.cons_append, List.nil_append]
  have hq : ∀ c ∈ idc, (decide (c ≠ '#')) = true := fun c hc => by
    simp [(idChar_props c (hid c hc)).2.2.1]
  rw [List.takeWhile_cons, if_pos (by decide), List.takeWhile_cons, if_pos (by decide),
    takeWhile_all _ idc hq]
  have h5 : List.map Char.toLower "www.youtube.com".toList = "www.youtube.com".toList := by decide
  rw [h5]

theorem parseUrl_embed (idc : List Char)
    (hid : ∀ c ∈ idc, idChar c = true) :
    parseUrl ("https://www.youtube.com/embed/".toList ++ idc) =
      some ⟨"www.youtube.com".toList, "/embed/".toList ++ idc, []⟩ := by
  have hq2 : ∀ c ∈ idc, (decide (c ≠ '?') && decide (c ≠ '#')) = true := fun c hc => by
    simp [(idChar_props c (hid c hc)).2.1, (idChar_props c (hid c hc)).2.2.1]
  have hsplit : ("https://www.youtube.com/embed/".toList : List Char) =
      "https://".toList ++ "www.youtube.com/embed/".toList := rfl
  rw [parseUrl, hsplit, List.append_assoc, stripChars_self]
  simp only []
  rw [takeWhile_append_stop (fun c => decide (c ≠ '/') && decide (c ≠ '?') && decide (c ≠ '#'))
    "www.youtube.com/embed/".toList idc (by decide)]
  have h1 : List.takeWhile (fun c => decide (c ≠ '/') && decide (c ≠ '?') && decide (c ≠ '#'))
      "www.youtube.com/embed/".toList = "www.youtube.com".toList := by decide
  rw [h1]
  rw [if_neg (by decide)]
  rw [drop_append_of_le ("www.youtube.com".toList).length
    "www.youtube.com/embed/".toList idc (by decide)]
  have h2 : List.drop ("www.youtube.com".toList).length "www.youtube.com/embed/".toList
      = "/embed/".toList := by decide
  rw [h2]
  rw [takeWhile_append_of_all (fun c => decide (c ≠ '?') && decide (c ≠ '#'))
    "/embed/".toList idc (by decide), takeWhile_all _ idc hq2]
  rw [if_neg (by simp [List.isEmpty_eq_true])]
  rw [List.drop_length]
  have h5 : List.map Char.toLower "www.youtube.com".toList = "www.youtube.com".toList := by decide
  rw [h5]

theorem parseUrl_youtuBe (idc : List Char)
    (hid : ∀ c ∈ idc, idChar c = true) :
    parseUrl ("https://youtu.be/".toList ++ idc) =
      some ⟨"youtu.be".toList, '/' :: idc, []⟩ := by
  have hq2 : ∀ c ∈ idc, (decide (c ≠ '?') && decide (c ≠ '#')) = true := fun c hc => by
    simp [(idChar_props c (hid c hc)).2.1, (idChar_props c (hid c hc)).2.2.1]
  have hsplit : ("https://youtu.be/".toList : List Char) =
      "https://".toList ++ "youtu.be/".toList := rfl
  rw [parseUrl, hsplit, List.append_assoc, stripChars_self]
  simp only []
  rw [takeWhile_append_stop (fun c => decide (c ≠ '/') && decide (c ≠ '?') && decide (c ≠ '#'))
    "youtu.be/".toList idc (by decide)]
  have h1 : List.takeWhile (fun c => decide (c ≠ '/') && decide (c ≠ '?') && decide (c ≠ '#'))
      "youtu.be/".toList = "youtu.be".toList := by decide
  rw [h1]
  rw [if_neg (by decide)]
  rw [drop_append_of_le ("youtu.be".toList).length "youtu.be/".toList idc (by decide)]
  have h2 : List.drop ("youtu.be".toList).length "youtu.be/".toList = ['/'] := by decide
  rw [h2]
  simp only [List.cons_append, List.nil_append]
  have h3 : List.takeWhile (fun c => decide (c ≠ '?') && decide (c ≠ '#')) ('/' :: idc) =
      '/' :: idc := by
    rw [List.takeWhile_cons, if_pos (by decide), takeWhile_all _ idc hq2]
  rw [h3]
  rw [if_neg (by simp [List.isEmpty_eq_true])]
  rw [List.drop_length]
  have h5 : List.map Char.toLower "youtu.be".toList = "youtu.be".toList := by decide
  rw [h5]

theorem toList_ne_nil (id : String) (hne : id ≠ "") : id.toList ≠ [] :=
  fun hl => hne (String.ext hl)

theorem extract_watch (id : String) (hne : id ≠ "")
    (hid : ∀ c ∈ id.toList, idChar c = true) :
    extractYouTubeId (some ("https://www.youtube.com/watch?v=" ++ id)) = some id := by
  have hdata : ("https://www.youtube.com/watch?v=" ++ id).toList =
      "https://www.youtube.com/watch?v=".toList ++ id.toList := String.data_append _ _
  have hsne : ¬ ("https://www.youtube.com/watch?v=" ++ id) = "" := by
    intro h
    have := congrArg String.toList h
    rw [hdata] at this
    simp at this
  have hamp : ∀ c ∈ ('v' :: '=' :: id.toList), c ≠ '&' := by
    intro c hc
    rcases List.mem_cons.mp hc with rfl | hc
    · decide
    rcases List.mem_cons.mp hc with rfl | hc
    · decide
    exact (idChar_props c (hid c hc)).2.2.2.1
  have hquery : parseQuery ('v' :: '=' :: id.toList) = [(['v'], id.toList)] := by
    rw [parseQuery, splitOnChar_no_sep '&' _ hamp]
    simp only [List.filterMap_cons, List.filterMap_nil, List.isEmpty_cons, if_neg]
    rw [if_neg (by simp)]
    rw [show splitEq ('v' :: '=' :: id.toList) = (['v'], id.toList) by simp [splitEq]]
  have hidne : id.data ≠ [] := toList_ne_nil id hne
  rw [extractYouTubeId]
  simp only []
  rw [if_neg hsne, hdata, parseUrl_watch id.toList hid]
  simp only []
  rw [if_pos (by decide : listIncludes "youtube.com".toList "www.youtube.com".toList = true)]
  rw [show ("v".toList : List Char) = ['v'] from rfl]
  rw [hquery]
  rw [searchGet, if_pos rfl]
  simp only []
  rw [if_neg (by simp [List.isEmpty_eq_true, hidne])]
  rfl

theorem extract_embed (id : String) (hlen : 6 ≤ id.length)
    (hid : ∀ c ∈ id.toList, idChar c = true) :
    extractYouTubeId (some ("https://www.youtube.com/embed/" ++ id)) = some id := by
  have hdata : ("https://www.youtube.com/embed/" ++ id).toList =
      "https://www.youtube.com/embed/".toList ++ id.toList := String.data_append _ _
  have hsne : ¬ ("https://www.youtube.com/embed/" ++ id) = "" := by
    intro h
    have := congrArg String.toList h
    rw [hdata] at this
    simp at this
  have hstrip : stripChars "/embed/".toList ('/' :: ("embed/".toList ++ id.toList)) =
      some id.toList := by
    rw [show ('/' :: ("embed/".toList ++ id.toList) : List Char) =
      "/embed/".toList ++ id.toList from rfl, stripChars_self]
  have hscan : embedScan ("/embed/".toList ++ id.toList) = some id.toList := by
    rw [show ("/embed/".toList ++ id.toList : List Char) =
      '/' :: ("embed/".toList ++ id.toList) from rfl]
    rw [embedScan, hstrip]
    simp only []
    rw [takeWhile_all idChar id.toList hid, if_pos (show 6 ≤ id.toList.length from hlen)]
  rw [extractYouTubeId]
  simp only []
  rw [if_neg hsne, hdata, parseUrl_embed id.toList hid]
  simp only []
  rw [if_pos (by decide : listIncludes "youtube.com".toList "www.youtube.com".toList = true)]
  rw [show parseQuery [] = [] from rfl]
  rw [show searchGet [] "v".toList = none from rfl]
  rw [hscan]
  rfl

theorem extract_youtuBe (id : String) (hne : id ≠ "")
    (hid : ∀ c ∈ id.toList, idChar c = true) :
    extractYouTubeId (some ("https://youtu.be/" ++ id)) = some id := by
  have hdata : ("https://youtu.be/" ++ id).toList =
      "https://youtu.be/".toList ++ id.toList := String.data_append _ _
  have hsne : ¬ ("https://youtu.be/" ++ id) = "" := by
    intro h
    have := congrArg String.toList h
    rw [hdata] at this
    simp at this
  have hidne : id.data ≠ [] := toList_ne_nil id hne
  have hnows : ∀ c ∈ id.toList, Char.isWhitespace c = false := fun c hc =>
    (idChar_props c (hid c hc)).2.2.2.2.2
  rw [extractYouTubeId]
  simp only []
  rw [if_neg hsne, hdata, parseUrl_youtuBe id.toList hid]
  simp only []
  rw [if_neg (by decide :
    ¬ listIncludes "youtube.com".toList "youtu.be".toList = true)]
  simp only []
  rw [if_pos trivial]
  simp only [jsReplaceFirst]
  rw [if_pos trivial, jsTrim_id id.toList hnows]
  rw [if_neg (by simp [List.isEmpty_eq_true, hidne])]
  rfl

/-! ## Claim theorems -/

/-- C1: For every fetched JSON array, an entry is included in the working set
if and only if its media type, lower-cased, is "image" or "video" and at
least one of its url, hdurl, thumbnail_url fields is a non-empty string;
included entries keep the source array's relative order. -/
theorem workingSet_filter_correct (data : List MediaEntry) :
    (mediaFilter data).Sublist data ∧
    ∀ e, e ∈ mediaFilter data ↔
      e ∈ data ∧
        ((∃ t, e.media_type = some t ∧
            (jsToLower t = "image" ∨ jsToLower t = "video")) ∧
         (nonEmptyStr e.url ∨ nonEmptyStr e.hdurl ∨ nonEmptyStr e.thumbnail_url)) := by
  refine ⟨List.filter_sublist data, fun e => ?_⟩
  rw [mediaFilter, List.mem_filter]
  constructor
  · rintro ⟨hmem, hcond⟩
    rcases Bool.and_eq_true _ _ |>.mp hcond with ⟨htype, hvis⟩
    refine ⟨hmem, (typeCond_iff e).mp htype, ?_⟩
    rcases Bool.or_eq_true _ _ |>.mp hvis with h | h
    · rcases Bool.or_eq_true _ _ |>.mp h with h' | h'
      · exact Or.inl ((truthy_iff _).mp h')
      · exact Or.inr (Or.inl ((truthy_iff _).mp h'))
    · exact Or.inr (Or.inr ((truthy_iff _).mp h))
  · rintro ⟨hmem, htype, hvis⟩
    refine ⟨hmem, ?_⟩
    rw [Bool.and_eq_true]
    refine ⟨(typeCond_iff e).mpr htype, ?_⟩
    rw [hasVisual, Bool.or_eq_true, Bool.or_eq_true]
    rcases hvis with h | h | h
    · exact Or.inl (Or.inl ((truthy_iff _).mpr h))
    · exact Or.inl (Or.inr ((truthy_iff _).mpr h))
    · exact Or.inr ((truthy_iff _).mpr h)

/-- C3: During every fetch the trigger control is disabled and its label set
to "Loading..."; on every exit path of the fetch operation (success, any
handled error, or a thrown error) the control is re-enabled and its original
label restored. -/
theorem busyGate_correct (st : AppState) (outcome : FetchOutcome) :
    (loadingPhase st).button.disabled = true ∧
    (loadingPhase st).button.label = "Loading..." ∧
    (fetchAndDisplayImages st outcome).button.disabled = false ∧
    (fetchAndDisplayImages st outcome).button.label = st.button.label := by
  exact ⟨rfl, rfl, rfl, rfl⟩

/-- C5: The renderer is idempotent: it clears all prior gallery content
(cards, placeholder, or message) before drawing, so calling it any number of
times with the same entry sequence leaves exactly one card per entry, in
sequence order, with no duplication. -/
theorem renderGallery_idempotent (items : List MediaEntry)
    (g g' : List GalleryNode) :
    renderGallery items (renderGallery items g) = renderGallery items g ∧
    renderGallery items g = renderGallery items g' ∧
    (renderGallery items g).length = items.length ∧
    ∀ i : Nat, (renderGallery items g).get? i =
      (items.get? i).map fun it => GalleryNode.card (createGalleryItem it i) := by
  have hbuild : ∀ (l : List MediaEntry) (k i : Nat),
      (buildCards l k).get? i =
        (l.get? i).map fun it => GalleryNode.card (createGalleryItem it (k + i)) := by
    intro l
    induction l with
    | nil => intro k i; rfl
    | cons it rest ih =>
      intro k i
      cases i with
      | zero => rfl
      | succ n =>
        show (buildCards rest (k + 1)).get? n = _
        rw [ih (k + 1) n]
        have : k + 1 + n = k + (n + 1) := by omega
        rw [this]
        rfl
  have hlen : ∀ (l : List MediaEntry) (k : Nat), (buildCards l k).length = l.length := by
    intro l
    induction l with
    | nil => intro k; rfl
    | cons it rest ih => intro k; simp [buildCards, ih]
  refine ⟨rfl, rfl, ?_, ?_⟩
  · show (buildCards items 0).length = items.length
    exact hlen items 0
  · intro i
    show (buildCards items 0).get? i = _
    rw [hbuild items 0 i]
    simp

/-- C9: Pressing the Escape key while the overlay is closed is a no-op: it
changes no state (overlay stays closed, focus and display unchanged) and
raises no error; Escape while open closes the overlay. -/
theorem escape_keydown_correct (st : AppState) :
    (st.modal.hidden = true → handleDocumentKeydown "Escape" st = st) ∧
    (st.modal.hidden = false →
      (handleDocumentKeydown "Escape" st).modal.hidden = true) := by
  constructor
  · intro h
    simp [handleDocumentKeydown, h]
  · intro h
    simp only [handleDocumentKeydown, h]
    rw [if_pos (by rfl)]
    unfold closeModal
    cases hl : ({ st with modal := { st.modal with hidden := true } } : AppState).lastFocusedElement <;> simp

/-- Witness for C9 at concrete closed and open states. -/
theorem escape_keydown_correct_witness :
    handleDocumentKeydown "Escape" initialState = initialState ∧
    (handleDocumentKeydown "Escape" sampleOpenState).modal.hidden = true :=
  ⟨(escape_keydown_correct initialState).1 rfl,
   (escape_keydown_correct sampleOpenState).2 rfl⟩

/-- C10: Opening the overlay at an index with no corresponding working-set
entry (index out of bounds, negative, or an empty working set) is a silent
no-op: the operation returns without changing the overlay's visibility, its
displayed content, or the recorded last-focused element. -/
theorem openModal_invalid_index_noop (st : AppState) (i : Int) :
    (jsIndex st.latestMediaItems i = none → openModalByIndex st i = st) ∧
    (i < 0 → openModalByIndex st i = st) ∧
    (st.latestMediaItems.length ≤ i.toNat → openModalByIndex st i = st) ∧
    (st.latestMediaItems = [] → openModalByIndex st i = st) := by
  have hnone : jsIndex st.latestMediaItems i = none → openModalByIndex st i = st := by
    intro h
    rw [openModalByIndex, h]
  refine ⟨hnone, ?_, ?_, ?_⟩
  · intro h
    exact hnone (by rw [jsIndex, if_pos h])
  · intro h
    apply hnone
    rw [jsIndex]
    split
    · rfl
    · exact List.get?_eq_none.mpr h
  · intro h
    apply hnone
    rw [jsIndex]
    split
    · rfl
    · rw [h]; rfl

/-- Witness for C10: negative, out-of-bounds and empty-set openings at
concrete states. -/
theorem openModal_invalid_index_noop_witness :
    openModalByIndex initialState (-1) = initialState ∧
    openModalByIndex vimeoState 5 = vimeoState ∧
    openModalByIndex initialState 0 = initialState :=
  ⟨(openModal_invalid_index_noop initialState (-1)).2.1 (by decide),
   (openModal_invalid_index_noop vimeoState 5).2.2.1 (by decide),
   (openModal_invalid_index_noop initialState 0).2.2.2 rfl⟩

/-- C4: Each failure kind of the fetch operation produces its specified
message: a parsed value that is not an array yields the distinct "unexpected
data format" message, an array whose filtered result is empty yields the
message "No media entries found.", and a non-2xx response or transport/parse
failure yields the generic retry-suggesting message; in every case the
trigger is usable again afterward. -/
theorem fetch_error_messages (st : AppState) :
    ((fetchAndDisplayImages st .jsonNonArray).gallery =
        [GalleryNode.placeholderMsg "Unexpected data format. Please try again later."] ∧
      (fetchAndDisplayImages st .jsonNonArray).button.disabled = false) ∧
    (∀ data, mediaFilter data = [] →
      (fetchAndDisplayImages st (.jsonArray data)).gallery =
          [GalleryNode.placeholderMsg "No media entries found."] ∧
        (fetchAndDisplayImages st (.jsonArray data)).button.disabled = false) ∧
    (∀ outcome, (outcome = FetchOutcome.networkReject ∨ outcome = FetchOutcome.notOk ∨
        outcome = FetchOutcome.parseError) →
      (fetchAndDisplayImages st outcome).gallery =
          [GalleryNode.placeholderMsg "There was a problem loading images. Please try again."] ∧
        (fetchAndDisplayImages st outcome).button.disabled = false) := by
  refine ⟨⟨rfl, rfl⟩, ?_, ?_⟩
  · intro data hempty
    constructor
    · show (fetchBody (loadingPhase st) (.jsonArray data)).gallery = _
      rw [fetchBody]
      rw [if_pos (by rw [hempty]; rfl)]
      rfl
    · rfl
  · rintro outcome (rfl | rfl | rfl) <;> exact ⟨rfl, rfl⟩

/-- Witness for C4 at the initial state with an empty source array and a
transport failure. -/
theorem fetch_error_messages_witness :
    (fetchAndDisplayImages initialState (.jsonArray [])).gallery =
        [GalleryNode.placeholderMsg "No media entries found."] ∧
      (fetchAndDisplayImages initialState FetchOutcome.networkReject).gallery =
        [GalleryNode.placeholderMsg "There was a problem loading images. Please try again."] :=
  ⟨((fetch_error_messages initialState).2.1 [] rfl).1,
   ((fetch_error_messages initialState).2.2 FetchOutcome.networkReject (Or.inl rfl)).1⟩

/-- C7: On any error of the fetch-and-display operation, no partial rendering
occurs: the display ends in a single coherent message state and never
contains a mix of old cards and new cards or a card/message mixture. -/
theorem no_partial_render_on_error (st : AppState) (outcome : FetchOutcome) :
    (outcome = FetchOutcome.networkReject ∨ outcome = FetchOutcome.notOk ∨
      outcome = FetchOutcome.parseError ∨ outcome = FetchOutcome.jsonNonArray ∨
      ∃ data, outcome = FetchOutcome.jsonArray data ∧ mediaFilter data = []) →
    ∃ text, (fetchAndDisplayImages st outcome).gallery =
      [GalleryNode.placeholderMsg text] := by
  rintro (rfl | rfl | rfl | rfl | ⟨data, rfl, hempty⟩)
  · exact ⟨_, rfl⟩
  · exact ⟨_, rfl⟩
  · exact ⟨_, rfl⟩
  · exact ⟨_, rfl⟩
  · refine ⟨"No media entries found.", ?_⟩
    show (fetchBody (loadingPhase st) (.jsonArray data)).gallery = _
    rw [fetchBody]
    rw [if_pos (by rw [hempty]; rfl)]
    rfl

/-- Witness for C7 at the initial state with a parse failure. -/
theorem no_partial_render_on_error_witness :
    ∃ text, (fetchAndDisplayImages initialState FetchOutcome.parseError).gallery =
      [GalleryNode.placeholderMsg text] :=
  no_partial_render_on_error initialState FetchOutcome.parseError
    (Or.inr (Or.inr (Or.inl rfl)))

/-- C8: For every working-set entry, the card's visual source is: for a
video, thumbnail_url if non-empty, else url, else the empty string; for an
image, url if non-empty, else hdurl, else the empty string; in particular a
video entry with neither thumbnail_url nor url yields the empty string and
rendering does not crash. -/
theorem card_visual_source (item : MediaEntry) (idx : Nat) :
    (normType item = "video" →
      (∀ s, item.thumbnail_url = some s → s ≠ "" →
          (createGalleryItem item idx).src = s) ∧
      (¬ nonEmptyStr item.thumbnail_url → ∀ s, item.url = some s → s ≠ "" →
          (createGalleryItem item idx).src = s) ∧
      (¬ nonEmptyStr item.thumbnail_url → ¬ nonEmptyStr item.url →
          (createGalleryItem item idx).src = "")) ∧
    (normType item = "image" →
      (∀ s, item.url = some s → s ≠ "" →
          (createGalleryItem item idx).src = s) ∧
      (¬ nonEmptyStr item.url → ∀ s, item.hdurl = some s → s ≠ "" →
          (createGalleryItem item idx).src = s) ∧
      (¬ nonEmptyStr item.url → ¬ nonEmptyStr item.hdurl →
          (createGalleryItem item idx).src = "")) := by
  have hsrc : (createGalleryItem item idx).src =
      if normType item = "video" then jsOrStr item.thumbnail_url (jsOrStr item.url "")
      else jsOrStr item.url (jsOrStr item.hdurl "") := rfl
  constructor
  · intro hv
    rw [hsrc, if_pos hv]
    refine ⟨?_, ?_, ?_⟩
    · intro s hs hne
      rw [hs, jsOrStr_pos s _ hne]
    · intro hthumb s hs hne
      rw [jsOrStr_neg _ _ hthumb, hs, jsOrStr_pos s _ hne]
    · intro hthumb hurl
      rw [jsOrStr_neg _ _ hthumb, jsOrStr_neg _ _ hurl]
  · intro hi
    have hnv : ¬ normType item = "video" := by
      rw [hi]; intro hc; exact absurd hc (by decide)
    rw [hsrc, if_neg hnv]
    refine ⟨?_, ?_, ?_⟩
    · intro s hs hne
      rw [hs, jsOrStr_pos s _ hne]
    · intro hurl s hs hne
      rw [jsOrStr_neg _ _ hurl, hs, jsOrStr_pos s _ hne]
    · intro hurl hhd
      rw [jsOrStr_neg _ _ hurl, jsOrStr_neg _ _ hhd]

/-- Witness for C8: a video card with a thumbnail, a video card with neither
thumbnail nor url, and an image card with a url. -/
theorem card_visual_source_witness :
    (createGalleryItem vimeoEntry 0).src = "thumb.jpg" ∧
    (createGalleryItem emptyVideoEntry 0).src = "" ∧
    (createGalleryItem sampleImageEntry 1).src = "https://example.org/n.jpg" :=
  ⟨((card_visual_source vimeoEntry 0).1 rfl).1 "thumb.jpg" rfl (by decide),
   ((card_visual_source emptyVideoEntry 0).1 rfl).2.2 (by decide) (by decide),
   ((card_visual_source sampleImageEntry 1).2 rfl).1 "https://example.org/n.jpg" rfl
     (by decide)⟩

/-- C6: Round-trip: for every working set and every valid index i, rendering
the working set and opening the overlay at index i shows entry i's title,
date, and explanation exactly, with defaults applied where a field is absent
(title defaults to "Untitled", explanation defaults to
"No explanation available."). -/
theorem modal_round_trip (st : AppState) (data : List MediaEntry) (i : Nat)
    (h : i < (mediaFilter data).length) :
    (openModalByIndex (fetchAndDisplayImages st (.jsonArray data)) (i : Int)).modal.hidden
        = false ∧
    (∀ s, ((mediaFilter data).get ⟨i, h⟩).title = some s → s ≠ "" →
      (openModalByIndex (fetchAndDisplayImages st (.jsonArray data)) (i : Int)).modal.title
        = s) ∧
    (((mediaFilter data).get ⟨i, h⟩).title = none →
      (openModalByIndex (fetchAndDisplayImages st (.jsonArray data)) (i : Int)).modal.title
        = "Untitled") ∧
    (∀ s, ((mediaFilter data).get ⟨i, h⟩).date = some s → s ≠ "" →
      (openModalByIndex (fetchAndDisplayImages st (.jsonArray data)) (i : Int)).modal.date
        = s) ∧
    (((mediaFilter data).get ⟨i, h⟩).date = none →
      (openModalByIndex (fetchAndDisplayImages st (.jsonArray data)) (i : Int)).modal.date
        = "") ∧
    (∀ s, ((mediaFilter data).get ⟨i, h⟩).explanation = some s → s ≠ "" →
      (openModalByIndex (fetchAndDisplayImages st (.jsonArray data)) (i : Int)).modal.description
        = s) ∧
    (((mediaFilter data).get ⟨i, h⟩).explanation = none →
      (openModalByIndex (fetchAndDisplayImages st (.jsonArray data)) (i : Int)).modal.description
        = "No explanation available.") := by
  have hitems :
      (fetchAndDisplayImages st (.jsonArray data)).latestMediaItems = mediaFilter data := by
    show (fetchBody (loadingPhase st) (.jsonArray data)).latestMediaItems = _
    simp only [fetchBody]
    rw [if_neg (by omega : ¬ (mediaFilter data).length = 0)]
  have hidx :
      jsIndex (fetchAndDisplayImages st (.jsonArray data)).latestMediaItems (i : Int) =
        some ((mediaFilter data).get ⟨i, h⟩) := by
    rw [hitems, jsIndex, if_neg (by omega : ¬ (i : Int) < 0)]
    simp only [Int.toNat_ofNat]
    exact List.get?_eq_get h
  have hopen :
      openModalByIndex (fetchAndDisplayImages st (.jsonArray data)) (i : Int) =
        (fun item => { fetchAndDisplayImages st (.jsonArray data) with
          lastFocusedElement := some (fetchAndDisplayImages st (.jsonArray data)).activeElement
          modal :=
            { hidden := false
              title := jsOrStr item.title "Untitled"
              date := jsOrStr item.date ""
              description := jsOrStr item.explanation "No explanation available."
              media :=
                (if normType item = "video" then
                  match extractYouTubeId item.url with
                  | some ytid =>
                    ([MediaNode.youtubeEmbed
                        ("https://www.youtube.com/embed/" ++ ytid ++ "?rel=0")
                        (jsOrStr item.title "YouTube video")],
                     [(⟨jsTemplateStr item.url, "Open on YouTube"⟩ : LinkNode)])
                  | none =>
                    ([MediaNode.image (jsOrStr item.thumbnail_url (jsOrStr item.url ""))
                        (jsOrStr item.title "Space video")],
                     if truthy item.url then
                       [(⟨jsTemplateStr item.url, "Open Video in New Tab"⟩ : LinkNode)]
                     else [])
                else
                  ([MediaNode.image (jsOrStr item.hdurl (jsOrStr item.url ""))
                      (jsOrStr item.title "Space image")], [])).1
              videoLink :=
                (if normType item = "video" then
                  match extractYouTubeId item.url with
                  | some ytid =>
                    ([MediaNode.youtubeEmbed
                        ("https://www.youtube.com/embed/" ++ ytid ++ "?rel=0")
                        (jsOrStr item.title "YouTube video")],
                     [(⟨jsTemplateStr item.url, "Open on YouTube"⟩ : LinkNode)])
                  | none =>
                    ([MediaNode.image (jsOrStr item.thumbnail_url (jsOrStr item.url ""))
                        (jsOrStr item.title "Space video")],
                     if truthy item.url then
                       [(⟨jsTemplateStr item.url, "Open Video in New Tab"⟩ : LinkNode)]
                     else [])
                else
                  ([MediaNode.image (jsOrStr item.hdurl (jsOrStr item.url ""))
                      (jsOrStr item.title "Space image")], [])).2 }
          activeElement := FocusTarget.modalClose })
          ((mediaFilter data).get ⟨i, h⟩) := by
    rw [openModalByIndex, hidx]
  rw [hopen]
  refine ⟨rfl, ?_, ?_, ?_, ?_, ?_, ?_⟩
  · intro s hs hne
    show jsOrStr ((mediaFilter data).get ⟨i, h⟩).title "Untitled" = s
    rw [hs, jsOrStr_pos s _ hne]
  · intro hs
    show jsOrStr ((mediaFilter data).get ⟨i, h⟩).title "Untitled" = "Untitled"
    rw [hs]; rfl
  · intro s hs hne
    show jsOrStr ((mediaFilter data).get ⟨i, h⟩).date "" = s
    rw [hs, jsOrStr_pos s _ hne]
  · intro hs
    show jsOrStr ((mediaFilter data).get ⟨i, h⟩).date "" = ""
    rw [hs]; rfl
  · intro s hs hne
    show jsOrStr ((mediaFilter data).get ⟨i, h⟩).explanation "No explanation available." = s
    rw [hs, jsOrStr_pos s _ hne]
  · intro hs
    show jsOrStr ((mediaFilter data).get ⟨i, h⟩).explanation "No explanation available."
        = "No explanation available."
    rw [hs]; rfl

/-- Witness for C6: fetching a one-entry array and opening index 0 shows that
entry's title, date and explanation. -/
theorem modal_round_trip_witness :
    (openModalByIndex (fetchAndDisplayImages initialState
        (.jsonArray [sampleImageEntry])) ((0 : Nat) : Int)).modal.title = "Nebula" ∧
    (openModalByIndex (fetchAndDisplayImages initialState
        (.jsonArray [sampleImageEntry])) ((0 : Nat) : Int)).modal.date = "2024-02-02" ∧
    (openModalByIndex (fetchAndDisplayImages initialState
        (.jsonArray [sampleImageEntry])) ((0 : Nat) : Int)).modal.description = "A nebula." :=
  ⟨(modal_round_trip initialState [sampleImageEntry] 0 (by decide)).2.1
      "Nebula" (by decide) (by decide),
   (modal_round_trip initialState [sampleImageEntry] 0 (by decide)).2.2.2.1
      "2024-02-02" (by decide) (by decide),
   (modal_round_trip initialState [sampleImageEntry] 0 (by decide)).2.2.2.2.2.1
      "A nebula." (by decide) (by decide)⟩

/-- C2 counterexample: the claim as stated fails for an embed-form URL whose
ID is shorter than six characters — the extractor's embed regex requires at
least six id-characters, so `/embed/abc12` yields no ID instead of "abc12". -/
theorem extract_embed_short_counterexample :
    extractYouTubeId (some "https://www.youtube.com/embed/abc12") ≠ some "abc12" := by
  decide

/-- C2 (amended): the extractor returns ID for
`https://www.youtube.com/watch?v=ID` and `https://youtu.be/ID` with ID a
non-empty string of characters from `[A-Za-z0-9_-]`, and for
`https://www.youtube.com/embed/ID` when ID additionally has at least six
characters (in particular abc123XYZ for the three example URLs), and returns
none for `https://vimeo.com/12345`, for which the thumbnail-plus-link
fallback path is taken. -/
theorem extractYouTubeId_forms :
    (∀ id : String, id ≠ "" → (∀ c ∈ id.toList, idChar c = true) →
      extractYouTubeId (some ("https://www.youtube.com/watch?v=" ++ id)) = some id) ∧
    (∀ id : String, 6 ≤ id.length → (∀ c ∈ id.toList, idChar c = true) →
      extractYouTubeId (some ("https://www.youtube.com/embed/" ++ id)) = some id) ∧
    (∀ id : String, id ≠ "" → (∀ c ∈ id.toList, idChar c = true) →
      extractYouTubeId (some ("https://youtu.be/" ++ id)) = some id) ∧
    extractYouTubeId (some "https://www.youtube.com/watch?v=abc123XYZ")
      = some "abc123XYZ" ∧
    extractYouTubeId (some "https://www.youtube.com/embed/abc123XYZ")
      = some "abc123XYZ" ∧
    extractYouTubeId (some "https://youtu.be/abc123XYZ") = some "abc123XYZ" ∧
    extractYouTubeId (some "https://vimeo.com/12345") = none ∧
    (openModalByIndex vimeoState 0).modal.media =
      [MediaNode.image "thumb.jpg" "A Space Film"] ∧
    (openModalByIndex vimeoState 0).modal.videoLink =
      [⟨"https://vimeo.com/12345", "Open Video in New Tab"⟩] := by
  exact ⟨extract_watch, extract_embed, extract_youtuBe, by decide, by decide, by decide,
    by decide, by decide, by decide⟩

/-- Witness for C2 at a concrete eleven-character ID. -/
theorem extractYouTubeId_forms_witness :
    extractYouTubeId (some ("https://www.youtube.com/watch?v=" ++ "dQw4w9WgXcQ"))
      = some "dQw4w9WgXcQ" ∧
    extractYouTubeId (some ("https://www.youtube.com/embed/" ++ "dQw4w9WgXcQ"))
      = some "dQw4w9WgXcQ" ∧
    extractYouTubeId (some ("https://youtu.be/" ++ "dQw4w9WgXcQ"))
      = some "dQw4w9WgXcQ" :=
  ⟨extractYouTubeId_forms.1 "dQw4w9WgXcQ" (by decide) (by decide),
   extractYouTubeId_forms.2.1 "dQw4w9WgXcQ" (by decide) (by decide),
   extractYouTubeId_forms.2.2.1 "dQw4w9WgXcQ" (by decide) (by decide)⟩

end SpaceExplorer
